import Mathlib

/-!
Shallow embedding of `src/containers/CSVUploader/index.jsx` (the `CSVUploader`
React component).  The component's `this.state` becomes `UploaderState`; each
`setState` call site becomes a total function on `UploaderState`; render-time
computations (`canSaveAndContinue`, `columnIsPresent`, the error-display
capping) become functions of the state and the `columnConfig` prop.  JS `null`
and `undefined` become `Option`, JS numbers in the progress computation become
`ℚ`, and JS truthiness is made explicit at each use site.
-/

namespace CSVUploader

/-- The four values of `this.state.state`: "idle, parsing, parsed, uploading". -/
inductive Phase
  | idle
  | parsing
  | parsed
  | uploading
deriving DecidableEq, Repr

/-- Aggregate counters of one parse pass (`validationStats`).  The component
stores this value opaquely; its fields are never read by `index.jsx`. -/
structure VStats where
  totalRows : Nat
  validRows : Nat
  invalidRows : Nat
  duplicateRows : Nat
deriving DecidableEq, Repr

/-- An output row of the parse: a mapping from `apiName` to final value.
`index.jsx` treats rows opaquely (it only reads `data.length`). -/
abbrev OutputRow := List (String × String)

/-- The object destructured from `await parseCSV(...)` in `onPickCSV`:
`{ data, fields, validationStats, fileName, errors }`. -/
structure ParseOutcome where
  data : List OutputRow
  fields : List String
  validationStats : VStats
  fileName : String
  errors : List String
deriving DecidableEq, Repr

/-- One entry of the `columnConfig` prop.  The `validate` and
`transformAndValidate` callbacks are only forwarded to `parseCSV` (which is
outside this component) and are never invoked by `index.jsx`, so they are
omitted from the embedding of the component. -/
structure ColumnSpec where
  inputName : String
  aliases : List String
  apiName : String
  required : Bool
  description : String
deriving DecidableEq, Repr

/-- The component's `this.state`.  `fileName` and `uploadProgress` are absent
from the constructor's initial state (JS `undefined`), hence `Option`. -/
structure UploaderState where
  state : Phase
  errors : Option (List String)
  uploadError : Option String
  parsedData : Option (List OutputRow)
  validationStats : Option VStats
  fields : Option (List String)
  fileName : Option String
  uploadProgress : Option ℚ
deriving DecidableEq, Repr

/-- The constructor's state.  `errors: this.props.initialError` (the
`initialError` prop, a possibly-absent message, modelled as an optional
singleton error list). -/
def initialState (initialError : Option (List String)) : UploaderState :=
  { state := .idle
    errors := initialError
    uploadError := none
    parsedData := none
    validationStats := none
    fields := none
    fileName := none
    uploadProgress := none }

/-- The guard at the top of `onPickCSV`:
`rejectedFiles.length > 0 || acceptedFiles.length + rejectedFiles.length > 1`.
Only the lengths of the two file arrays are read. -/
def pickRejects (accepted rejected : Nat) : Bool :=
  decide (rejected > 0) || decide (accepted + rejected > 1)

/-- The error branch of `onPickCSV`:
`this.setState({ errors: ["Please upload a single CSV file"] })`. -/
def pickError (s : UploaderState) : UploaderState :=
  { s with errors := some ["Please upload a single CSV file"] }

/-- The reset performed by `onPickCSV` before awaiting `parseCSV`:
`setState({ errors: null, parsedData: null, validationStats: null,
fields: null, state: "parsing" })`. -/
def pickStart (s : UploaderState) : UploaderState :=
  { s with
    errors := none
    parsedData := none
    validationStats := none
    fields := none
    state := .parsing }

/-- The synchronous entry of `onPickCSV`: either the error branch (guard
taken, early return) or the reset that precedes the `parseCSV` call. -/
def pickFiles (s : UploaderState) (accepted rejected : Nat) : UploaderState :=
  if pickRejects accepted rejected then pickError s else pickStart s

/-- The continuation of `onPickCSV` after `await parseCSV(...)` resolves
(lines 121–137).  The code applies the outcome unconditionally to whatever
the current state is: there is no staleness or generation check. -/
def applyParseOutcome (s : UploaderState) (r : ParseOutcome) : UploaderState :=
  if r.errors.length ≠ 0 then
    { s with
      state := .parsed
      validationStats := some r.validationStats
      errors := some r.errors
      fields := some r.fields }
  else
    { s with
      state := .parsed
      validationStats := some r.validationStats
      fields := some r.fields
      fileName := some r.fileName
      parsedData := some r.data
      errors := some (if r.data.length > 0 then []
                      else ["Please upload at least one valid row."]) }

/-- Embeds `onDelete`: reset everything and return to idle. -/
def onDelete (s : UploaderState) : UploaderState :=
  { s with
    errors := none
    uploadError := none
    parsedData := none
    validationStats := none
    fields := none
    state := .idle }

/-- The `setState` at the top of `onSave`:
`{ state: "uploading", uploadError: null, uploadProgress: 0 }`. -/
def saveStart (s : UploaderState) : UploaderState :=
  { s with
    state := .uploading
    uploadError := none
    uploadProgress := some 0 }

/-- A progress event delivered to the `onUploadProgress` callback:
`{ loaded, total }`. -/
structure ProgressEvent where
  loaded : ℚ
  total : ℚ
deriving DecidableEq, Repr

/-- JS `Math.round`: round half towards positive infinity. -/
def jsRound (q : ℚ) : ℤ :=
  ⌊q + 1 / 2⌋

/-- The `onUploadProgress` callback passed inside the request object to
`this.props.onUpload`.  Guarded: it only acts `if (this.state.state ===
"uploading")`, and then stores
`Math.round(progressEvent.loaded / progressEvent.total)`. -/
def onUploadProgress (s : UploaderState) (ev : ProgressEvent) : UploaderState :=
  if s.state = .uploading then
    { s with uploadProgress := some ((jsRound (ev.loaded / ev.total) : ℤ) : ℚ) }
  else
    s

/-- The success continuation of `onSave` (the `setState` after the `await`):
everything cleared, back to idle. -/
def uploadSucceeded (s : UploaderState) : UploaderState :=
  { s with
    state := .idle
    errors := none
    uploadError := none
    parsedData := none
    validationStats := none
    fields := none }

/-- The `catch` branch of `onSave`: `setState({ state: "parsed", uploadError:
e.message })`.  The raised error is consumed here; the handler is a total
function of the state and the message, so nothing propagates further. -/
def uploadFailed (s : UploaderState) (msg : String) : UploaderState :=
  { s with
    state := .parsed
    uploadError := some msg }

/-- JS `Array.prototype.indexOf` on an array of strings, scanning from index
`i`: returns the index of the first occurrence or `-1`. -/
def jsIndexOfFrom (l : List String) (x : String) (i : ℤ) : ℤ :=
  match l with
  | [] => -1
  | y :: ys => if y = x then i else jsIndexOfFrom ys x (i + 1)

/-- Embeds `fields.indexOf(name)`, scanning from index 0. -/
def jsIndexOf (l : List String) (x : String) : ℤ :=
  jsIndexOfFrom l x 0

/-- Embeds `columnIsPresent(name)`: `null` when `this.state.fields` is null, else
`fields.indexOf(name) !== -1`. -/
def columnIsPresent (s : UploaderState) (name : String) : Option Bool :=
  match s.fields with
  | none => none
  | some fs => some (decide (jsIndexOf fs name ≠ -1))

/-- JS truthiness of a nullable boolean, as consumed by `_.every`. -/
def truthyOptBool : Option Bool → Bool
  | none => false
  | some b => b

/-- JS truthiness of `this.state.errors && this.state.errors.length`:
false for `null` and for an empty array. -/
def errorsNonempty (s : UploaderState) : Bool :=
  match s.errors with
  | none => false
  | some l => decide (l.length ≠ 0)

/-- The `requiredColumns` of `_.partition(this.props.columnConfig, "required")`:
the entries whose `required` is truthy. -/
def requiredColumns (cfg : List ColumnSpec) : List ColumnSpec :=
  cfg.filter (fun c => c.required)

/-- Embeds `canSaveAndContinue`:
`!(errors && errors.length) && state !== "uploading" &&
_.every(requiredColumns, c => this.columnIsPresent(c.inputName))`. -/
def canSaveAndContinue (cfg : List ColumnSpec) (s : UploaderState) : Bool :=
  !errorsNonempty s
    && decide (s.state ≠ .uploading)
    && (requiredColumns cfg).all (fun c => truthyOptBool (columnIsPresent s c.inputName))

/-- The Upload button's click handler: `canSaveAndContinue && this.onSave()`
(and the button is also `disabled={!canSaveAndContinue}`), so `onSave` begins
only when the gate is true. -/
def clickUpload (cfg : List ColumnSpec) (s : UploaderState) : UploaderState :=
  if canSaveAndContinue cfg s then saveStart s else s

/-- Embeds `validationErrors = this.state.errors && this.state.errors.slice(0, 9)`. -/
def validationErrors (s : UploaderState) : Option (List String) :=
  s.errors.map (fun l => l.take 9)

/-- The `errors` binding of `render`:
`this.state.uploadError ? [this.state.uploadError] : validationErrors`
(a JS string is truthy exactly when non-empty). -/
def displayedErrors (s : UploaderState) : Option (List String) :=
  match s.uploadError with
  | some e => if e = "" then validationErrors s else some [e]
  | none => validationErrors s

/-- JS numeric coercion of a nullable array length in arithmetic:
`null` coerces to `0`. -/
def jsLenNum : Option (List String) → ℤ
  | none => 0
  | some l => l.length

/-- Embeds `rest = allErrorLength - visibleErrors`, the overflow count rendered as
"...and {rest} more rows with errors" when truthy (non-zero). -/
def restCount (s : UploaderState) : ℤ :=
  jsLenNum s.errors - jsLenNum (validationErrors s)

/-- A concrete parse outcome standing for the result of an earlier (stale)
parse invocation. -/
def staleOutcome : ParseOutcome :=
  { data := [[("email", "a@x.com")]]
    fields := ["email"]
    validationStats := { totalRows := 1, validRows := 1, invalidRows := 0, duplicateRows := 0 }
    fileName := "a.csv"
    errors := [] }

/-- A concrete parse outcome standing for the result of the latest parse
invocation. -/
def latestOutcome : ParseOutcome :=
  { data := [[("email", "b@x.com")]]
    fields := ["email"]
    validationStats := { totalRows := 1, validRows := 1, invalidRows := 0, duplicateRows := 0 }
    fileName := "b.csv"
    errors := [] }

/-- A concrete parse outcome with no surviving rows and no error messages. -/
def emptyOutcome : ParseOutcome :=
  { data := []
    fields := ["email"]
    validationStats := { totalRows := 0, validRows := 0, invalidRows := 0, duplicateRows := 0 }
    fileName := "empty.csv"
    errors := [] }

/-- A concrete list of eleven error messages, a display-capping test input. -/
def elevenErrors : List String :=
  ["e1", "e2", "e3", "e4", "e5", "e6", "e7", "e8", "e9", "e10", "e11"]

/-- A parsed session state holding `elevenErrors` and no upload error. -/
def elevenErrorState : UploaderState :=
  { initialState none with state := .parsed, errors := some elevenErrors }

/-- A concrete session state in the uploading phase, as produced by clicking
Upload from a parsed state. -/
def uploadingState : UploaderState :=
  saveStart
    { initialState none with
        state := .parsed
        parsedData := some [[("email", "a@x.com")]]
        fileName := some "a.csv" }

/-- A concrete single-required-column configuration. -/
def emailColumn : ColumnSpec :=
  { inputName := "email"
    aliases := ["Email"]
    apiName := "email"
    required := true
    description := "Email address" }

/-- One externally triggered step of the component, as the rendered UI and
the asynchronous continuations allow it to fire.  The asynchronous
continuations (`applyParseOutcome`, `onUploadProgress`, `uploadSucceeded`,
`uploadFailed`) run whenever the corresponding promise settles, with no phase
guard in the code, so they are enabled from every state; `saveStart` is
guarded by the button's `canSaveAndContinue` check. -/
inductive Step (cfg : List ColumnSpec) : UploaderState → UploaderState → Prop
  | pickErr (s : UploaderState) (a r : Nat) (hp : pickRejects a r = true) :
      Step cfg s (pickError s)
  | pickGo (s : UploaderState) (a r : Nat) (hp : pickRejects a r = false) :
      Step cfg s (pickStart s)
  | parseDone (s : UploaderState) (r : ParseOutcome) :
      Step cfg s (applyParseOutcome s r)
  | del (s : UploaderState) :
      Step cfg s (onDelete s)
  | save (s : UploaderState) (hs : canSaveAndContinue cfg s = true) :
      Step cfg s (saveStart s)
  | progress (s : UploaderState) (ev : ProgressEvent) :
      Step cfg s (onUploadProgress s ev)
  | uploadOk (s : UploaderState) :
      Step cfg s (uploadSucceeded s)
  | uploadErr (s : UploaderState) (msg : String) :
      Step cfg s (uploadFailed s msg)

/-- States reachable from the constructor's state by component steps. -/
inductive Reachable (cfg : List ColumnSpec) : UploaderState → Prop
  | init (initialError : Option (List String)) :
      Reachable cfg (initialState initialError)
  | step {s t : UploaderState} :
      Reachable cfg s → Step cfg s t → Reachable cfg t

/-! Helper lemmas shared by the claim theorems. -/

/-- Scanning for an absent element returns `-1` from any start index. -/
theorem jsIndexOfFrom_not_mem (l : List String) (x : String) (i : ℤ) (h : x ∉ l) :
    jsIndexOfFrom l x i = -1 := by
  induction l generalizing i with
  | nil => rfl
  | cons y ys ih =>
    have hne : ¬ y = x := fun hyx => h (by simp [hyx])
    simpa [jsIndexOfFrom, hne] using ih (i + 1) (fun hx => h (List.mem_cons_of_mem y hx))

/-- When the name is absent from the observed fields (or no fields were
observed at all), `columnIsPresent` is falsy. -/
theorem columnIsPresent_falsy (s : UploaderState) (name : String)
    (habs : ∀ fs, s.fields = some fs → name ∉ fs) :
    truthyOptBool (columnIsPresent s name) = false := by
  cases hf : s.fields with
  | none => simp [columnIsPresent, hf, truthyOptBool]
  | some fs =>
    have hmem : name ∉ fs := habs fs hf
    simp [columnIsPresent, hf, truthyOptBool, jsIndexOf,
      jsIndexOfFrom_not_mem fs name 0 hmem]

/-- The progress callback touches `uploadProgress` only. -/
theorem onUploadProgress_frame (s : UploaderState) (ev : ProgressEvent) :
    (onUploadProgress s ev).state = s.state ∧
    (onUploadProgress s ev).errors = s.errors ∧
    (onUploadProgress s ev).uploadError = s.uploadError ∧
    (onUploadProgress s ev).parsedData = s.parsedData ∧
    (onUploadProgress s ev).validationStats = s.validationStats ∧
    (onUploadProgress s ev).fields = s.fields ∧
    (onUploadProgress s ev).fileName = s.fileName := by
  unfold onUploadProgress
  split <;> exact ⟨rfl, rfl, rfl, rfl, rfl, rfl, rfl⟩

/-- A whole sequence of progress callbacks touches `uploadProgress` only. -/
theorem foldl_onUploadProgress_frame (evs : List ProgressEvent) (s : UploaderState) :
    (evs.foldl onUploadProgress s).state = s.state ∧
    (evs.foldl onUploadProgress s).errors = s.errors ∧
    (evs.foldl onUploadProgress s).uploadError = s.uploadError ∧
    (evs.foldl onUploadProgress s).parsedData = s.parsedData ∧
    (evs.foldl onUploadProgress s).validationStats = s.validationStats ∧
    (evs.foldl onUploadProgress s).fields = s.fields ∧
    (evs.foldl onUploadProgress s).fileName = s.fileName := by
  induction evs generalizing s with
  | nil => exact ⟨rfl, rfl, rfl, rfl, rfl, rfl, rfl⟩
  | cons ev evs ih =>
    have h1 := onUploadProgress_frame s ev
    have h2 := ih (onUploadProgress s ev)
    simp only [List.foldl_cons]
    exact ⟨h2.1.trans h1.1, h2.2.1.trans h1.2.1, h2.2.2.1.trans h1.2.2.1,
      h2.2.2.2.1.trans h1.2.2.2.1, h2.2.2.2.2.1.trans h1.2.2.2.2.1,
      h2.2.2.2.2.2.1.trans h1.2.2.2.2.2.1, h2.2.2.2.2.2.2.trans h1.2.2.2.2.2.2⟩

/-- Applying a parse outcome always lands in the parsed phase. -/
theorem applyParseOutcome_state (s : UploaderState) (r : ParseOutcome) :
    (applyParseOutcome s r).state = Phase.parsed := by
  unfold applyParseOutcome
  split <;> rfl

/-- Applying a parse outcome never touches `uploadError`. -/
theorem applyParseOutcome_uploadError (s : UploaderState) (r : ParseOutcome) :
    (applyParseOutcome s r).uploadError = s.uploadError := by
  unfold applyParseOutcome
  split <;> rfl

/-- Invariant of the component: whenever the session is idle, no upload error
is held (every transition into or staying in idle clears or preserves a
`none` upload error). -/
theorem reachable_idle_no_uploadError {cfg : List ColumnSpec} {s : UploaderState}
    (h : Reachable cfg s) : s.state = Phase.idle → s.uploadError = none := by
  induction h with
  | init initialError => intro _; rfl
  | @step s t hr hstep ih =>
    cases hstep with
    | pickErr a r hp => intro hphase; exact ih hphase
    | pickGo a r hp => intro hphase; simp [pickStart] at hphase
    | parseDone r =>
      intro hphase
      rw [applyParseOutcome_state s r] at hphase
      simp at hphase
    | del => intro _; rfl
    | save hs => intro hphase; simp [saveStart] at hphase
    | progress ev =>
      intro hphase
      have hf := onUploadProgress_frame s ev
      rw [hf.2.2.1]
      exact ih (hf.1 ▸ hphase)
    | uploadOk => intro _; rfl
    | uploadErr msg => intro hphase; simp [uploadFailed] at hphase

/-! The claim theorems. -/

/-- C1: whenever some `ColumnSpec` with `required = true` has an `inputName`
absent from the fields observed from the parsed header (including when no
fields have been observed at all), `canSaveAndContinue` is false and the
Upload button's click handler does not start `onSave`, regardless of the
rest of the session state. -/
theorem C1_required_column_blocks_upload (cfg : List ColumnSpec) (s : UploaderState)
    (c : ColumnSpec) (hc : c ∈ cfg) (hreq : c.required = true)
    (habs : ∀ fs, s.fields = some fs → c.inputName ∉ fs) :
    canSaveAndContinue cfg s = false ∧ clickUpload cfg s = s := by
  have hmem : c ∈ requiredColumns cfg := by
    simp [requiredColumns, List.mem_filter, hc, hreq]
  have hfalsy := columnIsPresent_falsy s c.inputName habs
  have hall : (requiredColumns cfg).all
      (fun d => truthyOptBool (columnIsPresent s d.inputName)) = false := by
    cases hA : (requiredColumns cfg).all
        (fun d => truthyOptBool (columnIsPresent s d.inputName)) with
    | false => rfl
    | true =>
      have := List.all_eq_true.mp hA c hmem
      rw [hfalsy] at this
      exact absurd this (by simp)
  have hcan : canSaveAndContinue cfg s = false := by
    simp [canSaveAndContinue, hall]
  exact ⟨hcan, by simp [clickUpload, hcan]⟩

/-- Witness for C1 at a concrete configuration and the initial state. -/
theorem C1_required_column_blocks_upload_witness :
    canSaveAndContinue [emailColumn] (initialState none) = false ∧
    clickUpload [emailColumn] (initialState none) = initialState none :=
  C1_required_column_blocks_upload [emailColumn] (initialState none) emailColumn
    (by simp) rfl (fun fs h => by simp [initialState] at h)

/-- C2: when the caller-supplied `onUpload` raises, after any sequence of
progress events, the `catch` branch returns the session to the parsed phase
with `parsedData`, `fileName`, `validationStats`, `fields` and `errors`
exactly as at the moment `onSave` began, and `uploadError` set to the raised
message; the handler is a total function, so the error stops there. -/
theorem C2_upload_failure_keeps_dataset (s₀ : UploaderState)
    (evs : List ProgressEvent) (msg : String) :
    (uploadFailed (evs.foldl onUploadProgress (saveStart s₀)) msg).state = Phase.parsed ∧
    (uploadFailed (evs.foldl onUploadProgress (saveStart s₀)) msg).uploadError = some msg ∧
    (uploadFailed (evs.foldl onUploadProgress (saveStart s₀)) msg).parsedData = s₀.parsedData ∧
    (uploadFailed (evs.foldl onUploadProgress (saveStart s₀)) msg).fileName = s₀.fileName ∧
    (uploadFailed (evs.foldl onUploadProgress (saveStart s₀)) msg).validationStats = s₀.validationStats ∧
    (uploadFailed (evs.foldl onUploadProgress (saveStart s₀)) msg).fields = s₀.fields ∧
    (uploadFailed (evs.foldl onUploadProgress (saveStart s₀)) msg).errors = s₀.errors := by
  have hf := foldl_onUploadProgress_frame evs (saveStart s₀)
  exact ⟨rfl, rfl, hf.2.2.2.1, hf.2.2.2.2.2.2, hf.2.2.2.2.1, hf.2.2.2.2.2.1, hf.2.1⟩

/-- C3: a progress event delivered while the session is not in the uploading
phase is ignored entirely: the state, `uploadProgress` included, is unchanged. -/
theorem C3_stale_progress_ignored (s : UploaderState) (ev : ProgressEvent)
    (h : s.state ≠ Phase.uploading) :
    onUploadProgress s ev = s := by
  unfold onUploadProgress
  simp [h]

/-- Witness for C3 at the idle initial state. -/
theorem C3_stale_progress_ignored_witness :
    (initialState none).state ≠ Phase.uploading ∧
    onUploadProgress (initialState none) ⟨1, 2⟩ = initialState none :=
  ⟨by decide, C3_stale_progress_ignored (initialState none) ⟨1, 2⟩ (by decide)⟩

/-- C4, failing input for the claim: `onPickCSV` applies the awaited parse
outcome unconditionally, with no staleness check.  Concretely, after the
latest parse has already moved the session to the parsed phase, a stale
outcome arriving late still overwrites `parsedData` (and the rest), so the
stale result is not discarded. -/
theorem C4_stale_parse_overwrites :
    (applyParseOutcome (pickStart (initialState none)) latestOutcome).state = Phase.parsed ∧
    (applyParseOutcome (applyParseOutcome (pickStart (initialState none)) latestOutcome)
        staleOutcome).parsedData = some staleOutcome.data ∧
    applyParseOutcome (applyParseOutcome (pickStart (initialState none)) latestOutcome)
        staleOutcome
      ≠ applyParseOutcome (pickStart (initialState none)) latestOutcome := by
  refine ⟨rfl, rfl, ?_⟩
  decide

/-- C5, counterexample: a selection event with zero accepted and zero
rejected files does not satisfy the guard, so no error is reported and the
session does enter the parsing phase (the claim asserts the opposite for
zero-file selections). -/
theorem C5_zero_files_counterexample :
    (pickFiles (initialState none) 0 0).state = Phase.parsing ∧
    (pickFiles (initialState none) 0 0).errors = none := by
  decide

/-- C5, amended: whenever at least one file is rejected or more than one
file is selected in total, the session reports exactly the single message
"Please upload a single CSV file", nothing else changes, and no parse is
started (the phase is unchanged). -/
theorem C5_guard_reports_single_error (s : UploaderState) (a r : Nat)
    (h : 0 < r ∨ 1 < a + r) :
    pickFiles s a r = pickError s ∧
    (pickFiles s a r).errors = some ["Please upload a single CSV file"] ∧
    (pickFiles s a r).state = s.state := by
  have hp : pickRejects a r = true := by
    rcases h with h | h <;> simp [pickRejects, h]
  refine ⟨by simp [pickFiles, hp], ?_, ?_⟩ <;> simp [pickFiles, hp, pickError]

/-- Witness for the amended C5 at two accepted and one rejected file. -/
theorem C5_guard_reports_single_error_witness :
    (0 < 1 ∨ 1 < 2 + 1) ∧
    (pickFiles (initialState none) 2 1 = pickError (initialState none) ∧
     (pickFiles (initialState none) 2 1).errors = some ["Please upload a single CSV file"] ∧
     (pickFiles (initialState none) 2 1).state = (initialState none).state) :=
  ⟨Or.inl (by decide),
    C5_guard_reports_single_error (initialState none) 2 1 (Or.inl (by decide))⟩

/-- C6: with no upload error pending, the rendered error list is exactly the
first nine stored messages (so at most nine are displayed), and the overflow
count `rest` equals the total number of errors minus the number displayed;
in particular when more than nine are stored it equals total minus nine. -/
theorem C6_error_display_cap (s : UploaderState) (es : List String)
    (h1 : s.errors = some es) (h2 : s.uploadError = none) :
    displayedErrors s = some (es.take 9) ∧
    (es.take 9).length ≤ 9 ∧
    restCount s = (es.length : ℤ) - ((es.take 9).length : ℤ) ∧
    (9 < es.length → restCount s = (es.length : ℤ) - 9) := by
  have hv : validationErrors s = some (es.take 9) := by
    simp [validationErrors, h1]
  refine ⟨by simp [displayedErrors, h2, hv], ?_, ?_, ?_⟩
  · simp [List.length_take]
  · simp [restCount, h1, hv, jsLenNum]
  · intro hlen
    have htake : (es.take 9).length = 9 := by
      simp [List.length_take]
      omega
    simp [restCount, h1, hv, jsLenNum, htake]

/-- Witness for C6 at a concrete eleven-message error list. -/
theorem C6_error_display_cap_witness :
    displayedErrors elevenErrorState = some (elevenErrors.take 9) ∧
    (elevenErrors.take 9).length ≤ 9 ∧
    restCount elevenErrorState = (elevenErrors.length : ℤ) - ((elevenErrors.take 9).length : ℤ) ∧
    (9 < elevenErrors.length → restCount elevenErrorState = (elevenErrors.length : ℤ) - 9) :=
  C6_error_display_cap elevenErrorState elevenErrors rfl rfl

/-- C7, failing input for the claim: while uploading, a progress event with
`loaded = 1` and `total = 4` is stored as `Math.round(1/4) = 0`, not as the
fraction `1/4`: the code rounds the fraction itself to the nearest integer,
so the stored progress is not the fraction `loaded/total`. -/
theorem C7_progress_rounds_fraction :
    uploadingState.state = Phase.uploading ∧
    (onUploadProgress uploadingState ⟨1, 4⟩).uploadProgress = some 0 ∧
    (1 : ℚ) / 4 ≠ 0 := by
  refine ⟨rfl, ?_, by norm_num⟩
  norm_num [onUploadProgress, uploadingState, saveStart, initialState, jsRound]

/-- C8: when the parse outcome carries no error messages, `parsedData` is set
to the cleaned dataset, and the session's errors become the single message
"Please upload at least one valid row." exactly when no row survived;
otherwise the stored error list is empty. -/
theorem C8_no_valid_rows_message (s : UploaderState) (r : ParseOutcome)
    (h : r.errors = []) :
    (applyParseOutcome s r).parsedData = some r.data ∧
    (applyParseOutcome s r).state = Phase.parsed ∧
    ((applyParseOutcome s r).errors = some ["Please upload at least one valid row."]
      ↔ r.data = []) ∧
    (r.data ≠ [] → (applyParseOutcome s r).errors = some []) := by
  have hcond : ¬ r.errors.length ≠ 0 := by simp [h]
  refine ⟨by simp [applyParseOutcome, hcond], by simp [applyParseOutcome, hcond], ?_, ?_⟩
  · cases hd : r.data with
    | nil => simp [applyParseOutcome, hcond, hd]
    | cons x xs => simp [applyParseOutcome, hcond, hd]
  · intro hne
    have : r.data.length > 0 := by
      cases hd : r.data with
      | nil => exact absurd hd hne
      | cons x xs => simp [hd]
    simp [applyParseOutcome, hcond, this]

/-- Witness for C8 at a concrete empty parse outcome. -/
theorem C8_no_valid_rows_message_witness :
    (applyParseOutcome (pickStart (initialState none)) emptyOutcome).parsedData
        = some emptyOutcome.data ∧
    (applyParseOutcome (pickStart (initialState none)) emptyOutcome).state = Phase.parsed ∧
    ((applyParseOutcome (pickStart (initialState none)) emptyOutcome).errors
        = some ["Please upload at least one valid row."] ↔ emptyOutcome.data = []) ∧
    (emptyOutcome.data ≠ [] →
      (applyParseOutcome (pickStart (initialState none)) emptyOutcome).errors = some []) :=
  C8_no_valid_rows_message (pickStart (initialState none)) emptyOutcome rfl

/-- C9: in every reachable idle session (the only phase in which the file
picker is rendered), starting a new parse leaves `errors`, `uploadError`,
`parsedData`, `validationStats` and `fields` all cleared, so nothing of an
earlier attempt's outcome survives into the new one. -/
theorem C9_new_attempt_is_clean (cfg : List ColumnSpec) (s : UploaderState)
    (hr : Reachable cfg s) (hidle : s.state = Phase.idle) :
    (pickStart s).errors = none ∧
    (pickStart s).uploadError = none ∧
    (pickStart s).parsedData = none ∧
    (pickStart s).validationStats = none ∧
    (pickStart s).fields = none ∧
    (pickStart s).state = Phase.parsing := by
  refine ⟨rfl, ?_, rfl, rfl, rfl, rfl⟩
  show s.uploadError = none
  exact reachable_idle_no_uploadError hr hidle

/-- Witness for C9 at the initial state. -/
theorem C9_new_attempt_is_clean_witness :
    (pickStart (initialState none)).errors = none ∧
    (pickStart (initialState none)).uploadError = none ∧
    (pickStart (initialState none)).parsedData = none ∧
    (pickStart (initialState none)).validationStats = none ∧
    (pickStart (initialState none)).fields = none ∧
    (pickStart (initialState none)).state = Phase.parsing :=
  C9_new_attempt_is_clean [] (initialState none) (Reachable.init none) rfl

/-- C10: when `onUpload` resolves successfully (after any sequence of
progress events), the success continuation moves the session to idle and
clears `errors`, `uploadError`, `parsedData`, `validationStats` and `fields`
to null, so no parsed dataset remains to upload again. -/
theorem C10_upload_success_clears_session (s₀ : UploaderState)
    (evs : List ProgressEvent) :
    (uploadSucceeded (evs.foldl onUploadProgress (saveStart s₀))).state = Phase.idle ∧
    (uploadSucceeded (evs.foldl onUploadProgress (saveStart s₀))).errors = none ∧
    (uploadSucceeded (evs.foldl onUploadProgress (saveStart s₀))).uploadError = none ∧
    (uploadSucceeded (evs.foldl onUploadProgress (saveStart s₀))).parsedData = none ∧
    (uploadSucceeded (evs.foldl onUploadProgress (saveStart s₀))).validationStats = none ∧
    (uploadSucceeded (evs.foldl onUploadProgress (saveStart s₀))).fields = none :=
  ⟨rfl, rfl, rfl, rfl, rfl, rfl⟩

end CSVUploader
